import Mathlib

/-!
Verification development for the live-session transcription relay of the
irteqa-health-api repository.

The definitions below are a shallow embedding of the Python source:

* `ConnectionManager` with `connect`, `disconnect`, `broadcast`,
  `add_to_transcript`, `get_transcript` embeds the class of the same name in
  app/websockets/session_ws.py.  Websocket handles are modelled as naturals,
  session ids as strings, the two instance dicts as `Option`-valued maps
  (a key absent from the dict maps to `none`).
* `RefManager` is a second embedding of the same class that makes the
  object identity of the Python buffer lists explicit (a small heap of
  list cells), used where a claim is about aliasing versus copying.
* `DeepgramService` with `create_live_transcription`, `send_audio`,
  `close_connection` embeds the class of the same name in
  app/services/deepgram_service.py.  Provider connection objects are
  modelled by the naturals, allocated by a counter; the provider accepting
  or rejecting `connection.start(options)` is an explicit boolean input;
  `connection.finish()` calls are recorded in a list.
* `on_transcript` and `handle_audio_setup` embed the transcript callback
  and the connection-setup prefix of `handle_audio_websocket` in
  app/websockets/session_ws.py.  I/O outcomes that the Python code
  branches on (does a `send_json` to a given socket raise, does the
  session row exist, is the Deepgram singleton configured) are explicit
  boolean inputs; frames sent to the connecting client are returned as a
  list of error strings.
-/

namespace Irteqa

/-- One entry of a transcript buffer: the dict
`{"text": ..., "is_final": ..., "timestamp": ...}` appended by
`ConnectionManager.add_to_transcript`.  The timestamp is the value the
event-loop clock returned at the call. -/
structure TranscriptEvent where
  text : String
  is_final : Bool
  timestamp : ℚ
deriving DecidableEq

/-- State of the `ConnectionManager` instance: the dict
`active_connections : session_id -> set of websockets` and the dict
`transcript_buffers : session_id -> list of events`. -/
structure ConnectionManager where
  active_connections : String → Option (Finset ℕ)
  transcript_buffers : String → Option (List TranscriptEvent)

/-- The freshly constructed manager: both dicts empty. -/
def ConnectionManager.init : ConnectionManager :=
  { active_connections := fun _ => none, transcript_buffers := fun _ => none }

/-- Embedding of `ConnectionManager.connect`: if the session id is not a key
of `active_connections`, install an empty set there and an empty list in
`transcript_buffers`; then add the websocket to the session's set.  (The
`websocket.accept()` side effect has no state in this model.) -/
def connect (m : ConnectionManager) (websocket : ℕ) (session_id : String) :
    ConnectionManager :=
  match m.active_connections session_id with
  | none =>
      { active_connections := fun s =>
          if s = session_id then some {websocket} else m.active_connections s,
        transcript_buffers := fun s =>
          if s = session_id then some [] else m.transcript_buffers s }
  | some conns =>
      { m with active_connections := fun s =>
          if s = session_id then some (insert websocket conns)
          else m.active_connections s }

/-- Embedding of `ConnectionManager.disconnect`: discard the websocket from
the session's set if the session is a key; if the set became empty, delete
both the set and the session's transcript buffer. -/
def disconnect (m : ConnectionManager) (websocket : ℕ) (session_id : String) :
    ConnectionManager :=
  match m.active_connections session_id with
  | none => m
  | some conns =>
      let remaining := conns.erase websocket
      if remaining = ∅ then
        { active_connections := fun s =>
            if s = session_id then none else m.active_connections s,
          transcript_buffers := fun s =>
            if s = session_id then none else m.transcript_buffers s }
      else
        { m with active_connections := fun s =>
            if s = session_id then some remaining else m.active_connections s }

/-- Embedding of `ConnectionManager.broadcast`.  `sendFails ws = true` means
`ws.send_json(message)` raises for that websocket.  The Python loop sends to
every member, collecting the failing ones, then calls `disconnect` on each
failing one; the iteration order of a Python set is unspecified, so the
failing members are enumerated here in ascending order (the proofs below
hold for an arbitrary enumeration).  Returns the new manager state together
with the set of websockets the message was delivered to. -/
def broadcast (m : ConnectionManager) (session_id : String)
    (sendFails : ℕ → Bool) : ConnectionManager × Finset ℕ :=
  match m.active_connections session_id with
  | none => (m, ∅)
  | some conns =>
      let delivered := conns.filter (fun c => sendFails c = false)
      let disconnected := conns.filter (fun c => sendFails c = true)
      ((disconnected.sort (· ≤ ·)).foldl
         (fun acc c => disconnect acc c session_id) m,
       delivered)

/-- Embedding of `ConnectionManager.add_to_transcript`: create an empty
buffer for the session id if absent, then append the event.  `now` is the
value `asyncio.get_event_loop().time()` returns at this call. -/
def add_to_transcript (m : ConnectionManager) (session_id text : String)
    (is_final : Bool) (now : ℚ) : ConnectionManager :=
  let buf := (m.transcript_buffers session_id).getD []
  { m with transcript_buffers := fun s =>
      if s = session_id then some (buf ++ [⟨text, is_final, now⟩])
      else m.transcript_buffers s }

/-- Embedding of `ConnectionManager.get_transcript` at the level of list
values: `self.transcript_buffers.get(session_id, [])`. -/
def get_transcript (m : ConnectionManager) (session_id : String) :
    List TranscriptEvent :=
  (m.transcript_buffers session_id).getD []

/-- Number of members of the session's connection set, `0` when the session
id is not a key of `active_connections`. -/
def connSize (m : ConnectionManager) (session_id : String) : ℕ :=
  ((m.active_connections session_id).getD ∅).card

/-- Membership of a websocket in a session's connection set. -/
def isMember (m : ConnectionManager) (websocket : ℕ) (session_id : String) :
    Bool :=
  match m.active_connections session_id with
  | none => false
  | some conns => decide (websocket ∈ conns)

theorem ConnectionManager.ext_of
    {m₁ m₂ : ConnectionManager}
    (h₁ : ∀ s, m₁.active_connections s = m₂.active_connections s)
    (h₂ : ∀ s, m₁.transcript_buffers s = m₂.transcript_buffers s) :
    m₁ = m₂ := by
  cases m₁
  cases m₂
  congr 1
  · funext s; exact h₁ s
  · funext s; exact h₂ s

theorem connect_of_none {m : ConnectionManager} {session_id : String}
    (websocket : ℕ) (h : m.active_connections session_id = none) :
    connect m websocket session_id =
      { active_connections := fun s =>
          if s = session_id then some {websocket} else m.active_connections s,
        transcript_buffers := fun s =>
          if s = session_id then some [] else m.transcript_buffers s } := by
  unfold connect
  rw [h]

theorem connect_of_some {m : ConnectionManager} {session_id : String}
    {conns : Finset ℕ} (websocket : ℕ)
    (h : m.active_connections session_id = some conns) :
    connect m websocket session_id =
      { m with active_connections := fun s =>
          if s = session_id then some (insert websocket conns)
          else m.active_connections s } := by
  unfold connect
  rw [h]

theorem disconnect_of_none {m : ConnectionManager} {session_id : String}
    (websocket : ℕ) (h : m.active_connections session_id = none) :
    disconnect m websocket session_id = m := by
  unfold disconnect
  rw [h]

theorem disconnect_of_some_empty {m : ConnectionManager} {session_id : String}
    {conns : Finset ℕ} (websocket : ℕ)
    (h : m.active_connections session_id = some conns)
    (he : conns.erase websocket = ∅) :
    disconnect m websocket session_id =
      { active_connections := fun s =>
          if s = session_id then none else m.active_connections s,
        transcript_buffers := fun s =>
          if s = session_id then none else m.transcript_buffers s } := by
  unfold disconnect
  rw [h]
  simp [he]

theorem disconnect_of_some_nonempty {m : ConnectionManager}
    {session_id : String} {conns : Finset ℕ} (websocket : ℕ)
    (h : m.active_connections session_id = some conns)
    (he : conns.erase websocket ≠ ∅) :
    disconnect m websocket session_id =
      { m with active_connections := fun s =>
          if s = session_id then some (conns.erase websocket)
          else m.active_connections s } := by
  unfold disconnect
  rw [h]
  simp [he]

theorem broadcast_of_some {m : ConnectionManager} {session_id : String}
    {conns : Finset ℕ} (sendFails : ℕ → Bool)
    (h : m.active_connections session_id = some conns) :
    broadcast m session_id sendFails =
      (((conns.filter (fun c => sendFails c = true)).sort (· ≤ ·)).foldl
         (fun acc c => disconnect acc c session_id) m,
       conns.filter (fun c => sendFails c = false)) := by
  unfold broadcast
  rw [h]

/-- State of the `DeepgramService` instance: the dict
`active_connections : session_id -> LiveClient`.  Connection objects are
identified by the naturals; `next_conn` allocates the identity of the next
object `self.client.listen.live.v("1")` builds, and `finished` records, in
order, the connections on which `connection.finish()` was called. -/
structure DeepgramService where
  active_connections : String → Option ℕ
  next_conn : ℕ
  finished : List ℕ

/-- The freshly constructed service: no active connections, nothing
finished. -/
def DeepgramService.init : DeepgramService :=
  { active_connections := fun _ => none, next_conn := 0, finished := [] }

/-- Embedding of `DeepgramService.create_live_transcription`: build a new
connection object, register the event handlers, and call
`connection.start(options)`; `start_ok` is whether the provider accepts.  On
acceptance the new connection is stored under the session id (overwriting
any existing entry) and returned; on refusal an exception is raised and the
dict is untouched. -/
def create_live_transcription (s : DeepgramService) (session_id : String)
    (start_ok : Bool) : Except String (DeepgramService × ℕ) :=
  let connection := s.next_conn
  if start_ok then
    Except.ok
      ({ s with
          active_connections := fun x =>
            if x = session_id then some connection else s.active_connections x,
          next_conn := connection + 1 },
       connection)
  else
    Except.error "Failed to start Deepgram connection"

/-- Embedding of `DeepgramService.send_audio`: look the session id up in
`active_connections`; forward the chunk if a connection is there, otherwise
raise `ValueError`. -/
def send_audio (s : DeepgramService) (session_id : String) :
    Except String Unit :=
  match s.active_connections session_id with
  | some _ => Except.ok ()
  | none => Except.error ("No active connection for session " ++ session_id)

/-- Embedding of `DeepgramService.close_connection`: if a connection is
stored for the session id, call `finish()` on it and delete the entry;
otherwise do nothing. -/
def close_connection (s : DeepgramService) (session_id : String) :
    DeepgramService :=
  match s.active_connections session_id with
  | none => s
  | some c =>
      { s with
        active_connections := fun x =>
          if x = session_id then none else s.active_connections x,
        finished := s.finished ++ [c] }

/-- Payload fields of a transcript event delivered to the `on_transcript`
callback that the callback's control flow depends on (the `speaker` field is
only echoed into the broadcast payload). -/
structure TranscriptData where
  text : String
  is_final : Bool

/-- The durable session row, restricted to the one field the callback
mutates. -/
structure SessionRecord where
  transcript : Option String
deriving DecidableEq

/-- Embedding of the `on_transcript` callback inside
`handle_audio_websocket`: append the event to the in-memory buffer,
broadcast it to the session's connections, and, only when `is_final`,
append the text to the durable `session.transcript` (behind a newline) and
commit.  Returns the new manager state, the new session row, and how many
durable append-and-commit operations were performed. -/
def on_transcript (m : ConnectionManager) (sess : SessionRecord)
    (session_id : String) (data : TranscriptData) (sendFails : ℕ → Bool)
    (now : ℚ) : ConnectionManager × SessionRecord × ℕ :=
  let m1 := add_to_transcript m session_id data.text data.is_final now
  let m2 := (broadcast m1 session_id sendFails).1
  if data.is_final then
    let existing := sess.transcript.getD ""
    (m2, { transcript := some (existing ++ "\n" ++ data.text) }, 1)
  else
    (m2, sess, 0)

/-- Embedding of the setup prefix of `handle_audio_websocket`, up to the
point where the receive loop would be entered: register the connection with
the manager, look the session row up (`session_exists`), and if it exists
start the Deepgram connection when the service singleton is configured
(`provider_available`) and the provider accepts (`start_ok`).  Returns the
manager state, the service state, the error frames sent to the connecting
client, whether the socket was closed, and whether the receive loop was
entered. -/
def handle_audio_setup (m : ConnectionManager) (dg : DeepgramService)
    (websocket : ℕ) (session_id : String)
    (session_exists provider_available start_ok : Bool) :
    ConnectionManager × DeepgramService × List String × Bool × Bool :=
  let m1 := connect m websocket session_id
  if session_exists = false then
    (m1, dg, ["Session not found"], true, false)
  else if provider_available then
    match create_live_transcription dg session_id start_ok with
    | Except.ok (dg2, _) => (m1, dg2, [], false, true)
    | Except.error e => (m1, dg, [e], true, false)
  else
    (m1, dg, ["Deepgram service not available"], true, false)

/-- Heap of Python list objects used by the aliasing-aware embedding
`RefManager`: `cells` gives each list object's current contents, `next` the
identity of the next list object to be allocated. -/
structure BufferHeap where
  cells : ℕ → List TranscriptEvent
  next : ℕ

/-- Aliasing-aware embedding of the `ConnectionManager` transcript-buffer
state: `transcript_buffers` maps a session id to the identity of its buffer
list object, and the heap holds the list objects themselves. -/
structure RefManager where
  transcript_buffers : String → Option ℕ
  heap : BufferHeap

/-- The freshly constructed manager in the aliasing-aware model. -/
def RefManager.init : RefManager :=
  { transcript_buffers := fun _ => none,
    heap := { cells := fun _ => [], next := 0 } }

/-- Aliasing-aware embedding of `ConnectionManager.get_transcript`:
`self.transcript_buffers.get(session_id, [])` returns the stored buffer
object itself when the key is present, and otherwise builds a fresh empty
list object (which is not stored in the dict). -/
def RefManager.get_transcript (m : RefManager) (session_id : String) :
    ℕ × RefManager :=
  match m.transcript_buffers session_id with
  | some c => (c, m)
  | none =>
      let c := m.heap.next
      (c, { m with heap :=
              { cells := fun i => if i = c then [] else m.heap.cells i,
                next := c + 1 } })

/-- Aliasing-aware embedding of `ConnectionManager.add_to_transcript`: if
the session id has no buffer, allocate a fresh empty list object and store
it in the dict; then append the event to the session's buffer object in
place. -/
def RefManager.add_to_transcript (m : RefManager) (session_id text : String)
    (is_final : Bool) (now : ℚ) : RefManager :=
  match m.transcript_buffers session_id with
  | some c =>
      { m with heap :=
          { cells := fun i =>
              if i = c then m.heap.cells c ++ [⟨text, is_final, now⟩]
              else m.heap.cells i,
            next := m.heap.next } }
  | none =>
      let c := m.heap.next
      { transcript_buffers := fun s =>
          if s = session_id then some c else m.transcript_buffers s,
        heap :=
          { cells := fun i =>
              if i = c then [⟨text, is_final, now⟩] else m.heap.cells i,
            next := c + 1 } }

/-- One call on the manager in a connect/disconnect trace for a fixed
session id: `conn ws` is `connect(ws, session_id)`, `disc ws` is
`disconnect(ws, session_id)`. -/
inductive HubOp where
  | conn (ws : ℕ)
  | disc (ws : ℕ)
deriving DecidableEq

/-- Apply one trace operation to the manager. -/
def applyHubOp (m : ConnectionManager) (session_id : String) :
    HubOp → ConnectionManager
  | HubOp.conn ws => connect m ws session_id
  | HubOp.disc ws => disconnect m ws session_id

/-- Run a connect/disconnect trace against the manager. -/
def runHubOps (m : ConnectionManager) (session_id : String)
    (t : List HubOp) : ConnectionManager :=
  t.foldl (fun acc op => applyHubOp acc session_id op) m

/-- Number of connect calls in a trace. -/
def countConnects : List HubOp → ℕ
  | [] => 0
  | HubOp.conn _ :: rest => countConnects rest + 1
  | HubOp.disc _ :: rest => countConnects rest

/-- Number of disconnect calls in a trace. -/
def countDisconnects : List HubOp → ℕ
  | [] => 0
  | HubOp.conn _ :: rest => countDisconnects rest
  | HubOp.disc _ :: rest => countDisconnects rest + 1

/-- Set of handles connected after running a trace from the member set
`S`. -/
def traceSet (S : Finset ℕ) : List HubOp → Finset ℕ
  | [] => S
  | HubOp.conn ws :: rest => traceSet (insert ws S) rest
  | HubOp.disc ws :: rest => traceSet (S.erase ws) rest

/-- Well-formedness of a trace from member set `S`: every connect brings a
handle that is not currently a member, and every disconnect matches a
current member. -/
def wfFrom (S : Finset ℕ) : List HubOp → Bool
  | [] => true
  | HubOp.conn ws :: rest => decide (ws ∉ S) && wfFrom (insert ws S) rest
  | HubOp.disc ws :: rest => decide (ws ∈ S) && wfFrom (S.erase ws) rest

/-- Correspondence between the manager state at a session id and the
abstract member set `S`: when `S` is empty, neither the connection set nor
the transcript buffer is allocated; when `S` is nonempty, the connection
set is exactly `S` and a transcript buffer is allocated. -/
def HubInv (m : ConnectionManager) (session_id : String) (S : Finset ℕ) :
    Prop :=
  (S = ∅ ∧ m.active_connections session_id = none ∧
      m.transcript_buffers session_id = none) ∨
  (S ≠ ∅ ∧ m.active_connections session_id = some S ∧
      ∃ b, m.transcript_buffers session_id = some b)

theorem hubInv_init (session_id : String) :
    HubInv ConnectionManager.init session_id ∅ :=
  Or.inl ⟨rfl, rfl, rfl⟩

theorem hubInv_connect {m : ConnectionManager} {session_id : String}
    {S : Finset ℕ} (ws : ℕ) (h : HubInv m session_id S) :
    HubInv (connect m ws session_id) session_id (insert ws S) := by
  rcases h with ⟨hS, ha, ht⟩ | ⟨hS, ha, b, hb⟩
  · refine Or.inr ⟨Finset.insert_ne_empty ws S, ?_, ⟨[], ?_⟩⟩
    · rw [connect_of_none ws ha]
      simp [hS]
    · rw [connect_of_none ws ha]
      simp
  · refine Or.inr ⟨Finset.insert_ne_empty ws S, ?_, ⟨b, ?_⟩⟩
    · rw [connect_of_some ws ha]
      simp
    · rw [connect_of_some ws ha]
      exact hb

theorem hubInv_disconnect {m : ConnectionManager} {session_id : String}
    {S : Finset ℕ} (ws : ℕ) (h : HubInv m session_id S) :
    HubInv (disconnect m ws session_id) session_id (S.erase ws) := by
  rcases h with ⟨hS, ha, ht⟩ | ⟨hS, ha, b, hb⟩
  · rw [disconnect_of_none ws ha]
    exact Or.inl ⟨by simp [hS], ha, ht⟩
  · by_cases he : S.erase ws = ∅
    · rw [disconnect_of_some_empty ws ha he]
      exact Or.inl ⟨he, by simp, by simp⟩
    · rw [disconnect_of_some_nonempty ws ha he]
      exact Or.inr ⟨he, by simp, ⟨b, hb⟩⟩

theorem hubInv_run (session_id : String) (t : List HubOp) :
    ∀ (m : ConnectionManager) (S : Finset ℕ), HubInv m session_id S →
      HubInv (runHubOps m session_id t) session_id (traceSet S t) := by
  induction t with
  | nil => intro m S h; exact h
  | cons op rest ih =>
      intro m S h
      cases op with
      | conn ws => exact ih _ _ (hubInv_connect ws h)
      | disc ws => exact ih _ _ (hubInv_disconnect ws h)

theorem traceSet_card (t : List HubOp) :
    ∀ S : Finset ℕ, wfFrom S t = true →
      (traceSet S t).card + countDisconnects t = S.card + countConnects t := by
  induction t with
  | nil => intro S _; simp [traceSet, countConnects, countDisconnects]
  | cons op rest ih =>
      intro S h
      cases op with
      | conn ws =>
          simp only [wfFrom, Bool.and_eq_true, decide_eq_true_eq] at h
          have hc : (insert ws S).card = S.card + 1 :=
            Finset.card_insert_of_not_mem h.1
          have := ih (insert ws S) h.2
          simp only [traceSet, countConnects, countDisconnects]
          omega
      | disc ws =>
          simp only [wfFrom, Bool.and_eq_true, decide_eq_true_eq] at h
          have hc : (S.erase ws).card + 1 = S.card := by
            rw [Finset.card_erase_of_mem h.1]
            have : 0 < S.card := Finset.card_pos.mpr ⟨ws, h.1⟩
            omega
          have := ih (S.erase ws) h.2
          simp only [traceSet, countConnects, countDisconnects]
          omega

theorem disconnect_foldl (l : List ℕ) :
    ∀ (m : ConnectionManager) (S : Finset ℕ) (session_id : String),
      m.active_connections session_id = some S →
      (S \ l.toFinset).Nonempty →
      ((l.foldl (fun acc c => disconnect acc c session_id) m).active_connections
          session_id = some (S \ l.toFinset)) ∧
      (l.foldl (fun acc c => disconnect acc c session_id) m).transcript_buffers
          = m.transcript_buffers := by
  induction l with
  | nil =>
      intro m S session_id h _
      simp only [List.foldl_nil, List.toFinset_nil, Finset.sdiff_empty]
      simp [h]
  | cons c rest ih =>
      intro m S session_id h hne
      have hsub : S \ (c :: rest).toFinset = S.erase c \ rest.toFinset := by
        ext x
        simp only [List.toFinset_cons, Finset.mem_sdiff, Finset.mem_erase,
          Finset.mem_insert]
        tauto
      have hne' : (S.erase c \ rest.toFinset).Nonempty := by
        rw [← hsub]; exact hne
      have herase_ne : S.erase c ≠ ∅ := by
        rcases hne' with ⟨x, hx⟩
        intro h0
        rw [h0] at hx
        exact absurd (Finset.mem_sdiff.mp hx).1 (Finset.not_mem_empty x)
      have hstep := disconnect_of_some_nonempty c h herase_ne
      have hact : (disconnect m c session_id).active_connections session_id
          = some (S.erase c) := by
        rw [hstep]; simp
      have hbuf : (disconnect m c session_id).transcript_buffers
          = m.transcript_buffers := by
        rw [hstep]
      rw [List.foldl_cons]
      obtain ⟨h1, h2⟩ := ih (disconnect m c session_id) (S.erase c) session_id
        hact hne'
      exact ⟨by rw [h1, ← hsub], by rw [h2, hbuf]⟩

theorem connect_active (m : ConnectionManager) (ws : ℕ) (session_id : String) :
    (connect m ws session_id).active_connections session_id
      = some (insert ws ((m.active_connections session_id).getD ∅)) := by
  cases h : m.active_connections session_id with
  | none => rw [connect_of_none ws h]; simp
  | some conns => rw [connect_of_some ws h]; simp

theorem connect_of_member {m : ConnectionManager} {session_id : String}
    {S : Finset ℕ} (ws : ℕ) (h : m.active_connections session_id = some S)
    (hw : ws ∈ S) : connect m ws session_id = m := by
  rw [connect_of_some ws h]
  apply ConnectionManager.ext_of
  · intro s
    by_cases hs : s = session_id
    · subst hs; simp [Finset.insert_eq_self.mpr hw, h]
    · simp [hs]
  · intro s; rfl

/-- Strictly increasing chain of timestamps. -/
def tsIncr : List ℚ → Bool
  | [] => true
  | [_] => true
  | a :: b :: rest => decide (a < b) && tsIncr (b :: rest)

theorem tsIncr_append (l : List ℚ) (t : ℚ) (h : tsIncr l = true)
    (hlt : ∀ x ∈ l, x < t) : tsIncr (l ++ [t]) = true := by
  induction l with
  | nil => simp [tsIncr]
  | cons a rest ih =>
      cases rest with
      | nil =>
          simp only [List.cons_append, List.nil_append, tsIncr,
            Bool.and_eq_true, decide_eq_true_eq]
          simp [hlt a (by simp)]
      | cons b rest' =>
          simp only [tsIncr, Bool.and_eq_true, decide_eq_true_eq] at h
          have hr := ih h.2 (fun x hx => hlt x (List.mem_cons_of_mem a hx))
          simp only [List.cons_append, tsIncr, Bool.and_eq_true,
            decide_eq_true_eq]
          exact ⟨h.1, hr⟩

/-- C1 counterexample: connecting the same handle twice (a sequence of two
connect calls and no disconnects) leaves the session's connection set at
size `1`, not `2 - 0` — for an arbitrary sequence of connect/disconnect
calls the set size does not equal the number of connects minus the
matching disconnects, because membership is set-based. -/
theorem connect_twice_size_counterexample :
    connSize (runHubOps ConnectionManager.init "s1"
        [HubOp.conn 0, HubOp.conn 0]) "s1" = 1 ∧
    countConnects [HubOp.conn 0, HubOp.conn 0] = 2 ∧
    countDisconnects [HubOp.conn 0, HubOp.conn 0] = 0 ∧
    connSize (runHubOps ConnectionManager.init "s1"
        [HubOp.conn 0, HubOp.conn 0]) "s1"
      ≠ countConnects [HubOp.conn 0, HubOp.conn 0]
          - countDisconnects [HubOp.conn 0, HubOp.conn 0] := by decide

/-- C1 as amended: for every well-formed sequence of connect and disconnect
calls on a session id (every connect brings a handle not currently in the
set and every disconnect matches a current member), the size of that
session's connection set afterwards equals the number of connects minus
the matching disconnects, and the transcript buffer for the session id
exists exactly when its connection set exists, in every state reachable by
such a trace: both are created on the first connect and both are deleted
when the last member is removed. -/
theorem connect_disconnect_size_and_buffer_lifecycle
    (session_id : String) (t : List HubOp) (h : wfFrom ∅ t = true) :
    connSize (runHubOps ConnectionManager.init session_id t) session_id
        = countConnects t - countDisconnects t ∧
    countDisconnects t ≤ countConnects t ∧
    ((runHubOps ConnectionManager.init session_id t).active_connections
          session_id = none ↔
      (runHubOps ConnectionManager.init session_id t).transcript_buffers
          session_id = none) := by
  have hinv := hubInv_run session_id t ConnectionManager.init ∅
    (hubInv_init session_id)
  have hcard := traceSet_card t ∅ h
  simp only [Finset.card_empty, Nat.zero_add] at hcard
  rcases hinv with ⟨hS, ha, hb⟩ | ⟨hS, ha, b, hb⟩
  · rw [hS, Finset.card_empty] at hcard
    refine ⟨?_, by omega, by simp [ha, hb]⟩
    simp only [connSize, ha, Option.getD_none, Finset.card_empty]
    omega
  · refine ⟨?_, by omega, ?_⟩
    · simp only [connSize, ha, Option.getD_some]
      omega
    · rw [ha, hb]
      simp

theorem connect_disconnect_size_and_buffer_lifecycle_witness :
    wfFrom ∅ [HubOp.conn 0, HubOp.conn 1, HubOp.disc 0] = true ∧
    (connSize (runHubOps ConnectionManager.init "s1"
          [HubOp.conn 0, HubOp.conn 1, HubOp.disc 0]) "s1"
        = countConnects [HubOp.conn 0, HubOp.conn 1, HubOp.disc 0]
            - countDisconnects [HubOp.conn 0, HubOp.conn 1, HubOp.disc 0] ∧
      countDisconnects [HubOp.conn 0, HubOp.conn 1, HubOp.disc 0]
        ≤ countConnects [HubOp.conn 0, HubOp.conn 1, HubOp.disc 0] ∧
      ((runHubOps ConnectionManager.init "s1"
            [HubOp.conn 0, HubOp.conn 1, HubOp.disc 0]).active_connections
            "s1" = none ↔
        (runHubOps ConnectionManager.init "s1"
            [HubOp.conn 0, HubOp.conn 1, HubOp.disc 0]).transcript_buffers
            "s1" = none)) :=
  ⟨by decide,
   connect_disconnect_size_and_buffer_lifecycle "s1"
     [HubOp.conn 0, HubOp.conn 1, HubOp.disc 0] (by decide)⟩

/-- C2: for every transcript event delivered by the bridge's callback, a
final event performs exactly one durable append of the event's text — the
new transcript field is the existing one followed by a newline and the
text — and the change is committed, while an interim event performs zero
durable appends and leaves the record's transcript unchanged. -/
theorem on_transcript_final_appends_once_interim_none
    (m : ConnectionManager) (sess : SessionRecord) (session_id : String)
    (data : TranscriptData) (sendFails : ℕ → Bool) (now : ℚ) :
    (on_transcript m sess session_id data sendFails now).2.2
        = (if data.is_final then 1 else 0) ∧
    (on_transcript m sess session_id data sendFails now).2.1.transcript
        = (if data.is_final
           then some (sess.transcript.getD "" ++ "\n" ++ data.text)
           else sess.transcript) := by
  unfold on_transcript
  cases h : data.is_final <;> simp [h]

/-- C3: broadcasting to a session whose connection set is `S`, where the
transports of `S.filter failed` fail and at least one transport succeeds,
delivers the event to exactly the non-failed members (so `N - M` of them)
and removes exactly the failed ones from the session's connection set. -/
theorem broadcast_delivers_to_survivors_removes_failed
    (m : ConnectionManager) (session_id : String) (S : Finset ℕ)
    (sendFails : ℕ → Bool)
    (hS : m.active_connections session_id = some S)
    (hM : (S.filter (fun c => sendFails c = true)).card < S.card) :
    (broadcast m session_id sendFails).2
        = S.filter (fun c => sendFails c = false) ∧
    (broadcast m session_id sendFails).2.card
        = S.card - (S.filter (fun c => sendFails c = true)).card ∧
    (broadcast m session_id sendFails).1.active_connections session_id
        = some (S.filter (fun c => sendFails c = false)) := by
  have hsd : S \ S.filter (fun c => sendFails c = true)
      = S.filter (fun c => sendFails c = false) := by
    ext x
    simp only [Finset.mem_sdiff, Finset.mem_filter]
    cases hfx : sendFails x <;> simp [hfx]
  have hcard : (S.filter (fun c => sendFails c = false)).card
      = S.card - (S.filter (fun c => sendFails c = true)).card := by
    rw [← hsd, Finset.card_sdiff (Finset.filter_subset _ _)]
  have hne : (S \ ((S.filter (fun c => sendFails c = true)).sort
      (· ≤ ·)).toFinset).Nonempty := by
    rw [Finset.sort_toFinset, hsd]
    apply Finset.card_pos.mp
    rw [hcard]
    omega
  obtain ⟨hact, _⟩ := disconnect_foldl
    ((S.filter (fun c => sendFails c = true)).sort (· ≤ ·)) m S session_id
    hS hne
  rw [Finset.sort_toFinset, hsd] at hact
  rw [broadcast_of_some sendFails hS]
  exact ⟨rfl, hcard, hact⟩

theorem broadcast_delivers_to_survivors_removes_failed_witness :
    (ConnectionManager.mk
        (fun s => if s = "s1" then some {0, 1} else none)
        (fun s => if s = "s1" then some [] else none)).active_connections
        "s1" = some {0, 1} ∧
    (({0, 1} : Finset ℕ).filter
        (fun c => (fun w => w == 0) c = true)).card < ({0, 1} : Finset ℕ).card ∧
    ((broadcast
        (ConnectionManager.mk
          (fun s => if s = "s1" then some {0, 1} else none)
          (fun s => if s = "s1" then some [] else none))
        "s1" (fun w => w == 0)).2
        = ({0, 1} : Finset ℕ).filter (fun c => (fun w => w == 0) c = false) ∧
      (broadcast
        (ConnectionManager.mk
          (fun s => if s = "s1" then some {0, 1} else none)
          (fun s => if s = "s1" then some [] else none))
        "s1" (fun w => w == 0)).2.card
        = ({0, 1} : Finset ℕ).card
            - (({0, 1} : Finset ℕ).filter
                (fun c => (fun w => w == 0) c = true)).card ∧
      (broadcast
        (ConnectionManager.mk
          (fun s => if s = "s1" then some {0, 1} else none)
          (fun s => if s = "s1" then some [] else none))
        "s1" (fun w => w == 0)).1.active_connections "s1"
        = some (({0, 1} : Finset ℕ).filter
            (fun c => (fun w => w == 0) c = false))) :=
  ⟨by decide, by decide,
   broadcast_delivers_to_survivors_removes_failed _ "s1" {0, 1}
     (fun w => w == 0) (by decide) (by decide)⟩

/-- C4: calling `send_audio` for a session id with no open provider
connection fails with the no-active-connection error instead of silently
dropping the audio — both in any state where no connection is open for that
id (in particular before any start) and immediately after
`close_connection` has been called for the id. -/
theorem send_audio_requires_open_connection
    (s t : DeepgramService) (session_id : String)
    (h : s.active_connections session_id = none) :
    send_audio s session_id
        = Except.error ("No active connection for session " ++ session_id) ∧
    send_audio (close_connection t session_id) session_id
        = Except.error ("No active connection for session " ++ session_id) := by
  constructor
  · unfold send_audio
    rw [h]
  · cases ht : t.active_connections session_id with
    | none =>
        unfold close_connection
        rw [ht]
        unfold send_audio
        rw [ht]
    | some c =>
        unfold close_connection
        rw [ht]
        unfold send_audio
        simp

theorem send_audio_requires_open_connection_witness :
    (DeepgramService.mk (fun x => if x = "s1" then some 0 else none) 1
        []).active_connections "s2" = none ∧
    (send_audio
        (DeepgramService.mk (fun x => if x = "s1" then some 0 else none) 1 [])
        "s2" = Except.error ("No active connection for session " ++ "s2") ∧
      send_audio
        (close_connection
          (DeepgramService.mk (fun x => if x = "s1" then some 0 else none) 1 [])
          "s2") "s2"
        = Except.error ("No active connection for session " ++ "s2")) :=
  ⟨by decide,
   send_audio_requires_open_connection
     (DeepgramService.mk (fun x => if x = "s1" then some 0 else none) 1 [])
     (DeepgramService.mk (fun x => if x = "s1" then some 0 else none) 1 [])
     "s2" (by decide)⟩

/-- C5 counterexample: connecting the audio socket for a session id that
does not exist, starting from the empty hub, sends one error frame and
closes the socket, but the hub's connection set for that id has changed
from absent to `{websocket}` — the handler registers the connection with
the hub before verifying that the session exists, so a failed connect does
not leave the hub unchanged. -/
theorem audio_connect_missing_session_counterexample :
    ConnectionManager.init.active_connections "s1" = none ∧
    (handle_audio_setup ConnectionManager.init DeepgramService.init 0 "s1"
        false true true).2.2.1 = ["Session not found"] ∧
    (handle_audio_setup ConnectionManager.init DeepgramService.init 0 "s1"
        false true true).2.2.2.1 = true ∧
    (handle_audio_setup ConnectionManager.init DeepgramService.init 0 "s1"
        false true true).1.active_connections "s1" = some {0} := by
  refine ⟨rfl, rfl, rfl, ?_⟩
  decide

/-- C5 as amended: on audio-socket connect for a session id that does not
exist, the handler first registers the connection with the hub, then
verifies session existence, sends one explicit error frame, closes the
socket and does not enter the receive loop — leaving the connection still
registered in the hub (the hub state is exactly that of a successful
`connect`). -/
theorem audio_connect_missing_session_registers_then_rejects
    (m : ConnectionManager) (dg : DeepgramService) (websocket : ℕ)
    (session_id : String) (provider_available start_ok : Bool) :
    handle_audio_setup m dg websocket session_id false provider_available
        start_ok
      = (connect m websocket session_id, dg, ["Session not found"], true,
         false) := rfl

/-- C6 counterexample: from the fresh service, a first `start` for session
"s1" opens connection `0`; a second `start` for the same session id does
not fail — it succeeds with a new connection `1`, replaces the stored entry
for "s1" (now `some 1`), and the list of connections on which `finish()`
was called is still empty, so connection `0` is left orphaned. -/
theorem duplicate_start_counterexample :
    ((create_live_transcription DeepgramService.init "s1" true).toOption.bind
        (fun r => (create_live_transcription r.1 "s1" true).toOption.map
          (fun r2 => (r.2, r2.2, r2.1.active_connections "s1",
            r2.1.finished))))
      = some (0, 1, some 1, []) := by decide

/-- C6 as amended: a second `start` call for a session id that is already
streaming does not fail with a duplicate-connection error: when the
provider accepts it succeeds, silently replaces the session's entry in the
active set with the newly opened connection, and performs no `finish()`
call, so the previously opened provider connection is left orphaned. -/
theorem duplicate_start_replaces_connection
    (s : DeepgramService) (session_id : String) (c : ℕ)
    (_h : s.active_connections session_id = some c) :
    ∃ s2, create_live_transcription s session_id true
        = Except.ok (s2, s.next_conn) ∧
      s2.active_connections session_id = some s.next_conn ∧
      s2.finished = s.finished := by
  refine ⟨_, rfl, ?_, rfl⟩
  simp [create_live_transcription]

theorem duplicate_start_replaces_connection_witness :
    (DeepgramService.mk (fun x => if x = "s1" then some 0 else none) 1
        []).active_connections "s1" = some 0 ∧
    (∃ s2, create_live_transcription
          (DeepgramService.mk (fun x => if x = "s1" then some 0 else none) 1
            []) "s1" true
        = Except.ok (s2,
            (DeepgramService.mk (fun x => if x = "s1" then some 0 else none) 1
              []).next_conn) ∧
      s2.active_connections "s1"
        = some (DeepgramService.mk (fun x => if x = "s1" then some 0 else none)
            1 []).next_conn ∧
      s2.finished
        = (DeepgramService.mk (fun x => if x = "s1" then some 0 else none) 1
            []).finished) :=
  ⟨by decide,
   duplicate_start_replaces_connection
     (DeepgramService.mk (fun x => if x = "s1" then some 0 else none) 1 [])
     "s1" 0 (by decide)⟩

/-- C7 counterexample: record an event for "s1", call `get_transcript`
(which returns the buffer object `p.1` without copying), then record a
second event; the sequence previously returned now has two elements — a
later buffer append changed a previously returned sequence, so
`get_transcript` does not return a snapshot copy. -/
theorem get_transcript_alias_counterexample :
    (RefManager.get_transcript
        (RefManager.add_to_transcript RefManager.init "s1" "a" true 0)
        "s1").2.heap.cells
      (RefManager.get_transcript
        (RefManager.add_to_transcript RefManager.init "s1" "a" true 0)
        "s1").1
      = [⟨"a", true, 0⟩] ∧
    (RefManager.add_to_transcript
        (RefManager.get_transcript
          (RefManager.add_to_transcript RefManager.init "s1" "a" true 0)
          "s1").2
        "s1" "b" false 1).heap.cells
      (RefManager.get_transcript
        (RefManager.add_to_transcript RefManager.init "s1" "a" true 0)
        "s1").1
      = [⟨"a", true, 0⟩, ⟨"b", false, 1⟩] := by
  constructor <;> decide

/-- C7 as amended: `get_transcript` returns the current buffer object
itself, not a copy — when a buffer exists for the session id it returns
that buffer unchanged, and a later `add_to_transcript` for the session
appends to the very object previously returned — while for a session id
with no buffer it returns a fresh empty sequence that is not registered as
the session's buffer. -/
theorem get_transcript_returns_alias
    (m m₂ : RefManager) (session_id text : String) (is_final : Bool)
    (now : ℚ) (c : ℕ)
    (h : m.transcript_buffers session_id = some c)
    (h₂ : m₂.transcript_buffers session_id = none) :
    RefManager.get_transcript m session_id = (c, m) ∧
    (RefManager.add_to_transcript m session_id text is_final now).heap.cells c
        = m.heap.cells c ++ [⟨text, is_final, now⟩] ∧
    (RefManager.get_transcript m₂ session_id).2.heap.cells
        (RefManager.get_transcript m₂ session_id).1 = [] ∧
    (RefManager.get_transcript m₂ session_id).2.transcript_buffers session_id
        = none := by
  refine ⟨?_, ?_, ?_, ?_⟩
  · unfold RefManager.get_transcript
    rw [h]
  · unfold RefManager.add_to_transcript
    rw [h]
    simp
  · unfold RefManager.get_transcript
    rw [h₂]
    simp
  · unfold RefManager.get_transcript
    rw [h₂]
    exact h₂

theorem get_transcript_returns_alias_witness :
    (RefManager.add_to_transcript RefManager.init "s1" "a" true
        0).transcript_buffers "s1" = some 0 ∧
    RefManager.init.transcript_buffers "s1" = none ∧
    (RefManager.get_transcript
        (RefManager.add_to_transcript RefManager.init "s1" "a" true 0) "s1"
        = (0, RefManager.add_to_transcript RefManager.init "s1" "a" true 0) ∧
      (RefManager.add_to_transcript
          (RefManager.add_to_transcript RefManager.init "s1" "a" true 0)
          "s1" "b" false 1).heap.cells 0
        = (RefManager.add_to_transcript RefManager.init "s1" "a" true
            0).heap.cells 0 ++ [⟨"b", false, 1⟩] ∧
      (RefManager.get_transcript RefManager.init "s1").2.heap.cells
          (RefManager.get_transcript RefManager.init "s1").1 = [] ∧
      (RefManager.get_transcript RefManager.init "s1").2.transcript_buffers
          "s1" = none) :=
  ⟨by decide, rfl,
   get_transcript_returns_alias
     (RefManager.add_to_transcript RefManager.init "s1" "a" true 0)
     RefManager.init "s1" "b" false 1 0 (by decide) rfl⟩

/-- C8: after `record_transcript` (the manager's `add_to_transcript`) at a
clock instant later than every timestamp already buffered, `get_transcript`
returns the previous buffer contents in append order with the just-recorded
`{text, is_final}` pair (stamped `now`) as the last element, and the
buffered timestamps are strictly increasing in append order whenever they
were before the call. -/
theorem record_then_get_appends_with_monotone_timestamps
    (m : ConnectionManager) (session_id text : String) (is_final : Bool)
    (now : ℚ)
    (hmono : tsIncr ((get_transcript m session_id).map
        TranscriptEvent.timestamp) = true)
    (hclock : ∀ e ∈ get_transcript m session_id, e.timestamp < now) :
    get_transcript (add_to_transcript m session_id text is_final now)
        session_id
      = get_transcript m session_id ++ [⟨text, is_final, now⟩] ∧
    tsIncr ((get_transcript (add_to_transcript m session_id text is_final now)
          session_id).map TranscriptEvent.timestamp) = true := by
  have happ : get_transcript (add_to_transcript m session_id text is_final
      now) session_id
      = get_transcript m session_id ++ [⟨text, is_final, now⟩] := by
    simp [get_transcript, add_to_transcript]
  refine ⟨happ, ?_⟩
  rw [happ]
  simp only [List.map_append, List.map_cons, List.map_nil]
  exact tsIncr_append _ now hmono (fun x hx => by
    rcases List.mem_map.mp hx with ⟨e, he, rfl⟩
    exact hclock e he)

theorem record_then_get_appends_with_monotone_timestamps_witness :
    tsIncr ((get_transcript
        (add_to_transcript ConnectionManager.init "s1" "hi" false 1)
        "s1").map TranscriptEvent.timestamp) = true ∧
    (∀ e ∈ get_transcript
        (add_to_transcript ConnectionManager.init "s1" "hi" false 1) "s1",
      e.timestamp < 2) ∧
    (get_transcript
        (add_to_transcript
          (add_to_transcript ConnectionManager.init "s1" "hi" false 1)
          "s1" "hi there" true 2) "s1"
      = get_transcript
          (add_to_transcript ConnectionManager.init "s1" "hi" false 1) "s1"
          ++ [⟨"hi there", true, 2⟩] ∧
    tsIncr ((get_transcript
          (add_to_transcript
            (add_to_transcript ConnectionManager.init "s1" "hi" false 1)
            "s1" "hi there" true 2) "s1").map
          TranscriptEvent.timestamp) = true) :=
  ⟨by decide, by decide,
   record_then_get_appends_with_monotone_timestamps
     (add_to_transcript ConnectionManager.init "s1" "hi" false 1)
     "s1" "hi there" true 2 (by decide) (by decide)⟩

/-- C9 counterexample: with an existing session but the transcription
provider unavailable (the Deepgram singleton is `None`), the handler sends
the transcription-disabled error frame and then closes the audio socket —
it does not keep the socket open in a degraded mode. -/
theorem provider_unavailable_counterexample :
    (handle_audio_setup ConnectionManager.init DeepgramService.init 0 "s1"
        true false true).2.2.1 = ["Deepgram service not available"] ∧
    (handle_audio_setup ConnectionManager.init DeepgramService.init 0 "s1"
        true false true).2.2.2.1 = true ∧
    (handle_audio_setup ConnectionManager.init DeepgramService.init 0 "s1"
        true false true).2.2.2.2 = false := ⟨rfl, rfl, rfl⟩

/-- C9 as amended: when the transcription provider is not configured at
audio-socket connect for an existing session, the handler informs the
client that transcription is unavailable with one error frame, then closes
the socket and never enters the receive loop, refusing the session rather
than degrading to an open socket without transcription (the connection
registered before the check stays in the hub). -/
theorem provider_unavailable_closes_socket
    (m : ConnectionManager) (dg : DeepgramService) (websocket : ℕ)
    (session_id : String) (start_ok : Bool) :
    handle_audio_setup m dg websocket session_id true false start_ok
      = (connect m websocket session_id, dg,
         ["Deepgram service not available"], true, false) := rfl

/-- C10: registering the same connection handle twice for the same session
id is idempotent — the state after the second `connect` is exactly the
state after the first, so the handle is a member exactly once and set size
counts distinct handles — and a single subsequent `disconnect` for the
handle removes it from the session's connection set entirely. -/
theorem connect_idempotent_single_disconnect_removes
    (m : ConnectionManager) (websocket : ℕ) (session_id : String) :
    connect (connect m websocket session_id) websocket session_id
        = connect m websocket session_id ∧
    isMember (connect m websocket session_id) websocket session_id = true ∧
    isMember (disconnect (connect (connect m websocket session_id) websocket
          session_id) websocket session_id) websocket session_id = false := by
  have hact := connect_active m websocket session_id
  have hidem : connect (connect m websocket session_id) websocket session_id
      = connect m websocket session_id :=
    connect_of_member websocket hact (Finset.mem_insert_self _ _)
  refine ⟨hidem, ?_, ?_⟩
  · unfold isMember
    rw [hact]
    simp
  · rw [hidem]
    by_cases he : (insert websocket
        ((m.active_connections session_id).getD ∅)).erase websocket = ∅
    · rw [disconnect_of_some_empty websocket hact he]
      simp [isMember]
    · rw [disconnect_of_some_nonempty websocket hact he]
      unfold isMember
      simp [Finset.not_mem_erase]

end Irteqa
